import Mathlib

/-!
# Shallow embedding of axo-project's manifest discovery and normalization engine

This file embeds the two source files of the repository:

* `src/generic.rs` — the declarative-config (`dist.toml`) detector:
  `Manifest`/`Workspace`/`Package` raw records, `Manifest::workspace_members`,
  `get_workspace`, `workspace_from`, `package_info`, `workspace_info`.
* `src/javascript.rs` — the JS-style (`package.json`) detector: `get_project`.

Crate-level items that the two files use but whose definitions are not part of
the provided sources (`crate::find_file`, `crate::find_auto_includes`,
`crate::merge_auto_includes`, the `PackageInfo`/`WorkspaceInfo`/
`WorkspaceSearch`/`WorkspaceKind` records and the error type) are modelled
from the spec, as noted on each such definition.  Filesystem access and
deserialization are external collaborators; they are abstracted as an
environment of functions from paths to results, so every embedded operation is
a pure function of that environment.

Paths (`camino::Utf8PathBuf`) are modelled as lists of path components:
`join` appends a component, `parent` drops the last component.
-/

/-- A filesystem path, as its list of components (models `camino::Utf8PathBuf`;
`p.join s` is `p ++ [s]`, `p.parent().unwrap()` is `p.dropLast`). -/
abbrev FsPath := List String

/-- Modelled from the spec: the result of the external conventional-file
scanner `crate::find_auto_includes` — "a conventional-file scanner taking a
directory → set of candidate README/LICENSE/CHANGELOG paths". -/
structure AutoIncludes where
  readme : Option FsPath
  license_files : List FsPath
  changelog : Option FsPath
deriving DecidableEq, Repr

/-- Modelled from the spec: the crate's error type (`AxoprojectError`).
`DistTomlMalformedError` and `PackageMissingError` are the variants
constructed in `src/generic.rs`; `NotFoundError`, `ReadError` and
`ParseError` model the spec's NotFound / ReadError / ParseError kinds
produced by the FsPath Search and Manifest Reader collaborators. -/
inductive AxoprojectError where
  | DistTomlMalformedError (path : FsPath)
  | PackageMissingError (path : FsPath)
  | NotFoundError (start_dir : FsPath) (clamp_to_dir : Option FsPath)
  | ReadError (path : FsPath)
  | ParseError (path : FsPath)
deriving DecidableEq, Repr

/-- Modelled from the spec: the crate's `WorkspaceKind` — "workspace kind
(tag identifying which ecosystem detector produced it)".  `Generic` and
`Rust` are the variants named in the sources; `Javascript` is the tag the
spec assigns to the JS-style detector. -/
inductive WorkspaceKind where
  | Generic
  | Rust
  | Javascript
deriving DecidableEq, Repr

/-- Modelled from the spec: the crate's `Version` — "optional version (tagged
by originating ecosystem)".  `Generic` wraps a `semver::Version`, modelled
opaquely as a string. -/
inductive Version where
  | Generic (v : String)
deriving DecidableEq, Repr

namespace generic

/-- Embeds `struct Package` of `src/generic.rs` (the deserialized
`[package]` section of a `dist.toml`). -/
structure Package where
  name : String
  repository : Option String
  homepage : Option String
  documentation : Option String
  description : Option String
  readme : Option FsPath
  authors : List String
  binaries : List String
  license : Option String
  changelog : Option FsPath
  license_files : List FsPath
  cstaticlibs : List String
  cdylibs : List String
  build_command : List String
  version : Option String
deriving DecidableEq, Repr

/-- Embeds `struct Workspace` of `src/generic.rs`. -/
structure Workspace where
  members : Option (List String)
deriving DecidableEq, Repr

/-- Embeds `struct Manifest` of `src/generic.rs`. -/
structure Manifest where
  workspace : Option Workspace
  package : Option Package
deriving DecidableEq, Repr

/-- Embeds `Manifest::workspace_members` of `src/generic.rs`: the members
list of the workspace section, when both are present. -/
def Manifest.workspace_members (m : Manifest) : Option (List String) :=
  match m.workspace with
  | some workspace => workspace.members
  | none => none

/-- Modelled from the spec: the crate's `PackageInfo` record, with the fields
`src/generic.rs` constructs (the `cargo-projects`-gated fields are omitted,
as they are compiled out in this slice). -/
structure PackageInfo where
  manifest_path : FsPath
  package_root : FsPath
  name : String
  version : Option Version
  description : Option String
  authors : List String
  license : Option String
  publish : Bool
  keywords : Option (List String)
  repository_url : Option String
  homepage_url : Option String
  documentation_url : Option String
  readme_file : Option FsPath
  license_files : List FsPath
  changelog_file : Option FsPath
  binaries : List String
  cstaticlibs : List String
  cdylibs : List String
  build_command : Option (List String)
deriving DecidableEq, Repr

/-- Modelled from the spec: the crate's `WorkspaceInfo` record, with the
fields `src/generic.rs` constructs. -/
structure WorkspaceInfo where
  kind : WorkspaceKind
  target_dir : FsPath
  workspace_dir : FsPath
  package_info : List PackageInfo
  manifest_path : FsPath
  repository_url : Option String
  root_auto_includes : AutoIncludes
  warnings : List String
deriving DecidableEq, Repr

/-- Modelled from the spec: the crate's `WorkspaceSearch` tri-state result —
Found / Missing (carrying the not-found cause) / Broken (carrying the found
manifest path and the cause). -/
inductive WorkspaceSearch where
  | Found (info : WorkspaceInfo)
  | Missing (cause : AxoprojectError)
  | Broken (manifest_path : FsPath) (cause : AxoprojectError)
deriving DecidableEq, Repr

/-- The external collaborators `src/generic.rs` calls, abstracted as
deterministic functions: `crate::find_file` (FsPath Search),
`load_root_dist_toml`'s file read + TOML deserialization (Manifest Reader
collaborators), and `crate::find_auto_includes` (conventional-file scanner). -/
structure Env where
  find_file : String → FsPath → Option FsPath → Except AxoprojectError FsPath
  load_root_dist_toml : FsPath → Except AxoprojectError Manifest
  find_auto_includes : FsPath → Except AxoprojectError AutoIncludes

/-- Embeds `package_info` of `src/generic.rs`: load the member's
`dist.toml`, require a `[package]` section, and normalize it into a
`PackageInfo`. -/
def package_info (env : Env) (manifest_root : FsPath) : Except AxoprojectError PackageInfo :=
  let manifest_path := manifest_root ++ ["dist.toml"]
  match env.load_root_dist_toml manifest_path with
  | .error e => .error e
  | .ok manifest =>
    match manifest.package with
    | none => .error (.PackageMissingError manifest_path)
    | some package =>
      .ok {
        manifest_path := manifest_path
        package_root := manifest_path
        name := package.name
        version := package.version.map Version.Generic
        description := package.description
        authors := package.authors
        license := package.license
        publish := true
        keywords := none
        repository_url := package.repository
        homepage_url := package.homepage
        documentation_url := package.documentation
        readme_file := package.readme
        license_files := package.license_files
        changelog_file := package.changelog
        binaries := package.binaries
        cstaticlibs := package.cstaticlibs
        cdylibs := package.cdylibs
        build_command := some package.build_command
      }

/-- Embeds `iter().map(f).collect::<Result<Vec<_>>>()`: apply `f` to each
element in order, short-circuiting on the first error. -/
def collectResult (f : α → Except ε β) : List α → Except ε (List β)
  | [] => .ok []
  | x :: xs =>
    match f x with
    | .error e => .error e
    | .ok y =>
      match collectResult f xs with
      | .error e => .error e
      | .ok ys => .ok (y :: ys)

/-- Embeds `workspace_info` of `src/generic.rs`: scan the root's auto
includes, normalize every expected member path, inherit the first member's
repository URL, and assemble the `WorkspaceInfo`. -/
def workspace_info (env : Env) (manifest_path : FsPath) (workspace_dir : FsPath)
    (expected_paths : List FsPath) : Except AxoprojectError WorkspaceInfo :=
  match env.find_auto_includes workspace_dir with
  | .error e => .error e
  | .ok root_auto_includes =>
    match collectResult (package_info env) expected_paths with
    | .error e => .error e
    | .ok pkgs =>
      .ok {
        kind := WorkspaceKind.Generic
        target_dir := workspace_dir ++ ["target"]
        workspace_dir := workspace_dir
        package_info := pkgs
        manifest_path := manifest_path
        repository_url := (pkgs.head?.map (fun p => p.repository_url)).getD none
        root_auto_includes := root_auto_includes
        warnings := []
      }

/-- Embeds `workspace_from` of `src/generic.rs`: load the root manifest,
resolve the topology (workspace members, else a single root package, else a
malformed-manifest error), and assemble the workspace. -/
def workspace_from (env : Env) (manifest_path : FsPath) : Except AxoprojectError WorkspaceInfo :=
  let workspace_dir := manifest_path.dropLast
  match env.load_root_dist_toml manifest_path with
  | .error e => .error e
  | .ok manifest =>
    match manifest.workspace_members with
    | some members =>
        workspace_info env manifest_path workspace_dir
          (members.map (fun name => workspace_dir ++ [name]))
    | none =>
      if manifest.package.isSome then
        workspace_info env manifest_path workspace_dir [workspace_dir]
      else
        .error (.DistTomlMalformedError manifest_path)

/-- Embeds `get_workspace` of `src/generic.rs`: find the nearest `dist.toml`
within the search bounds and classify the outcome three ways. -/
def get_workspace (env : Env) (start_dir : FsPath) (clamp_to_dir : Option FsPath) : WorkspaceSearch :=
  match env.find_file "dist.toml" start_dir clamp_to_dir with
  | .error e => .Missing e
  | .ok manifest_path =>
    match workspace_from env manifest_path with
    | .ok info => .Found info
    | .error e => .Broken manifest_path e

end generic

namespace javascript

/-- Embeds `oro_common::PersonField` as consumed by `src/javascript.rs`: a
plain-string author, or a structured author object (whose contents the
source never inspects). -/
inductive PersonField where
  | Str (s : String)
  | Obj
deriving DecidableEq, Repr

/-- Embeds `oro_common::Repository` as consumed by `src/javascript.rs`: a
bare string, or an object form carrying an optional `url` subfield. -/
inductive Repository where
  | Str (repo : String)
  | Obj (url : Option String)
deriving DecidableEq, Repr

/-- Embeds the fields of `oro_common::Manifest` that `src/javascript.rs`
consumes (`version` is modelled as its stringified form, as the source only
uses `v.to_string()`). -/
structure Manifest where
  name : Option String
  version : Option String
  author : Option PersonField
  repository : Option Repository
  description : Option String
  license : Option String
  homepage : Option String
deriving DecidableEq, Repr

/-- Modelled from the spec: the crate's `PackageInfo` record at the revision
of `src/javascript.rs`, with exactly the fields its literal constructs. -/
structure PackageInfo where
  name : String
  version : Option String
  description : Option String
  authors : List String
  license : Option String
  publish : Bool
  repository_url : Option String
  homepage_url : Option String
  documentation_url : Option String
  readme_file : Option FsPath
  license_files : List FsPath
  changelog_file : Option FsPath
  binaries : List String
deriving DecidableEq, Repr

/-- Modelled from the spec: the crate's `WorkspaceInfo` record at the
revision of `src/javascript.rs`, with exactly the fields its literal
constructs.  The `SortedMap<PackageId, PackageInfo>` holding a single
inserted entry is modelled as an association list. -/
structure WorkspaceInfo where
  kind : WorkspaceKind
  target_dir : FsPath
  workspace_dir : FsPath
  package_info : List (String × PackageInfo)
  manifest_path : FsPath
  repository_url : Option String
  root_auto_includes : AutoIncludes
deriving DecidableEq, Repr

/-- The failure modes of `get_project` in `src/javascript.rs`: `ReadError`
and `ParseError` are the wrapped errors of `load_manifest`,
`AutoIncludeError` an error of the auto-include scanner collaborator;
`NoPackageJsonFound` models the `unwrap()` panic when no ancestor holds a
`package.json`, and `MissingName` models the `expect(...)` panic on a
manifest with no `name` — both abort discovery without producing a
`WorkspaceInfo`. -/
inductive JsError where
  | NoPackageJsonFound
  | ReadError (path : FsPath)
  | ParseError (path : FsPath)
  | AutoIncludeError
  | MissingName
deriving DecidableEq, Repr

/-- The external collaborators `src/javascript.rs` uses, abstracted as
deterministic functions: `workspace_root()`'s upward walk from the current
directory for a `package.json` (its result, `None` when the walk finds
nothing), `load_manifest`'s file read + JSON deserialization, and
`crate::find_auto_includes`. -/
structure Env where
  workspace_root : Option FsPath
  load_manifest : FsPath → Except JsError Manifest
  find_auto_includes : FsPath → Except JsError AutoIncludes

/-- Modelled from the spec: `crate::merge_auto_includes` — "fill in
`readme_file`, `license_files`, and `changelog_file` only where the existing
value is empty/absent.  Never overwrites an explicitly declared value." -/
def merge_auto_includes (info : PackageInfo) (auto : AutoIncludes) : PackageInfo :=
  { info with
    readme_file :=
      match info.readme_file with
      | some r => some r
      | none => auto.readme
    license_files :=
      if info.license_files.isEmpty then auto.license_files else info.license_files
    changelog_file :=
      match info.changelog_file with
      | some c => some c
      | none => auto.changelog }

/-- Embeds `get_project` of `src/javascript.rs`: locate the nearest
`package.json`, parse it, require a `name`, normalize the single package,
merge the root auto includes into it, and assemble the `WorkspaceInfo`. -/
def get_project (env : Env) : Except JsError WorkspaceInfo :=
  match env.workspace_root with
  | none => .error .NoPackageJsonFound
  | some root =>
    let manifest_path := root ++ ["package.json"]
    match env.load_manifest manifest_path with
    | .error e => .error e
    | .ok manifest =>
      let target_dir := root ++ ["node_modules"]
      match env.find_auto_includes root with
      | .error e => .error e
      | .ok root_auto_includes =>
        match manifest.name with
        | none => .error .MissingName
        | some package_name =>
          let version := manifest.version
          let authors :=
            match manifest.author with
            | some (PersonField.Str s) => [s]
            | some PersonField.Obj => []
            | none => []
          let repository_url :=
            match manifest.repository with
            | some (Repository.Str repo) => some repo
            | some (Repository.Obj url) => url
            | none => none
          let info : PackageInfo := {
            name := package_name
            version := version
            description := manifest.description
            authors := authors
            license := manifest.license
            publish := true
            repository_url := repository_url
            homepage_url := manifest.homepage
            documentation_url := none
            readme_file := none
            license_files := []
            changelog_file := none
            binaries := [package_name]
          }
          let info := merge_auto_includes info root_auto_includes
          .ok {
            kind := WorkspaceKind.Rust
            target_dir := target_dir
            workspace_dir := root
            package_info := [(package_name, info)]
            manifest_path := manifest_path
            repository_url := repository_url
            root_auto_includes := root_auto_includes
          }

end javascript

/-! ## Concrete scenarios

Small concrete environments used to evaluate the embedded operations on
closed inputs: a two-member workspace, an absent manifest, a manifest with
neither section, a manifest with a members-less `[workspace]` section plus a
`[package]` section, a workspace with a broken member, and two JS projects
(one with and one without a `name`). -/

/-- A minimal `[package]` record with the given name and repository. -/
def samplePackage (name : String) (repository : Option String) : generic.Package :=
  { name := name, repository := repository, homepage := none, documentation := none,
    description := none, readme := none, authors := [], binaries := [name],
    license := none, changelog := none, license_files := [], cstaticlibs := [],
    cdylibs := [], build_command := ["make"], version := some "1.2.3" }

/-- The `PackageInfo` the declarative-config normalizer produces for
`samplePackage name repository` whose `dist.toml` sits in `root`. -/
def samplePackageInfo (root : FsPath) (name : String) (repository : Option String) :
    generic.PackageInfo :=
  { manifest_path := root ++ ["dist.toml"], package_root := root ++ ["dist.toml"],
    name := name, version := some (Version.Generic "1.2.3"), description := none,
    authors := [], license := none, publish := true, keywords := none,
    repository_url := repository, homepage_url := none, documentation_url := none,
    readme_file := none, license_files := [], changelog_file := none,
    binaries := [name], cstaticlibs := [], cdylibs := [],
    build_command := some ["make"] }

/-- A workspace at `ws` whose root `dist.toml` has both a `[workspace]`
section with members `a`, `b` and an inline `[package]` section; members `a`
and `b` each hold a valid single-package `dist.toml` with no repository;
the root auto-include scan finds a `README.md`. -/
def envTwoMembers : generic.Env :=
  { find_file := fun _ _ _ => .ok ["ws", "dist.toml"]
    load_root_dist_toml := fun path =>
      if path = ["ws", "dist.toml"] then
        .ok { workspace := some ⟨some ["a", "b"]⟩, package := some (samplePackage "root" none) }
      else if path = ["ws", "a", "dist.toml"] then
        .ok { workspace := none, package := some (samplePackage "a" none) }
      else if path = ["ws", "b", "dist.toml"] then
        .ok { workspace := none, package := some (samplePackage "b" none) }
      else
        .error (.ReadError path)
    find_auto_includes := fun dir => .ok ⟨some (dir ++ ["README.md"]), [], none⟩ }

/-- The `WorkspaceInfo` the declarative-config detector resolves in
`envTwoMembers`. -/
def wsTwoInfo : generic.WorkspaceInfo :=
  { kind := WorkspaceKind.Generic
    target_dir := ["ws", "target"]
    workspace_dir := ["ws"]
    package_info := [samplePackageInfo ["ws", "a"] "a" none, samplePackageInfo ["ws", "b"] "b" none]
    manifest_path := ["ws", "dist.toml"]
    repository_url := none
    root_auto_includes := ⟨some ["ws", "README.md"], [], none⟩
    warnings := [] }

/-- An environment where the upward search finds no `dist.toml` at all. -/
def envMissing : generic.Env :=
  { find_file := fun _ start_dir clamp_to_dir => .error (.NotFoundError start_dir clamp_to_dir)
    load_root_dist_toml := fun path => .error (.ReadError path)
    find_auto_includes := fun _ => .ok ⟨none, [], none⟩ }

/-- A `dist.toml` at `ws` that parses but has neither a `[workspace]` nor a
`[package]` section. -/
def envMalformed : generic.Env :=
  { find_file := fun _ _ _ => .ok ["ws", "dist.toml"]
    load_root_dist_toml := fun path =>
      if path = ["ws", "dist.toml"] then .ok { workspace := none, package := none }
      else .error (.ReadError path)
    find_auto_includes := fun _ => .ok ⟨none, [], none⟩ }

/-- A `dist.toml` at `ws` with a `[workspace]` section that has no `members`
field, together with an inline `[package]` section. -/
def envWsNoMembers : generic.Env :=
  { find_file := fun _ _ _ => .ok ["ws", "dist.toml"]
    load_root_dist_toml := fun path =>
      if path = ["ws", "dist.toml"] then
        .ok { workspace := some ⟨none⟩, package := some (samplePackage "root" none) }
      else .error (.ReadError path)
    find_auto_includes := fun _ => .ok ⟨none, [], none⟩ }

/-- A two-member workspace at `ws` whose member `a` is valid but whose
member `b` has a `dist.toml` with no `[package]` section. -/
def envBrokenMember : generic.Env :=
  { find_file := fun _ _ _ => .ok ["ws", "dist.toml"]
    load_root_dist_toml := fun path =>
      if path = ["ws", "dist.toml"] then
        .ok { workspace := some ⟨some ["a", "b"]⟩, package := none }
      else if path = ["ws", "a", "dist.toml"] then
        .ok { workspace := none, package := some (samplePackage "a" none) }
      else if path = ["ws", "b", "dist.toml"] then
        .ok { workspace := none, package := none }
      else .error (.ReadError path)
    find_auto_includes := fun _ => .ok ⟨none, [], none⟩ }

/-- The `Found` payload of a `WorkspaceSearch`, when there is one. -/
def searchFoundInfo : generic.WorkspaceSearch → Option generic.WorkspaceInfo
  | .Found info => some info
  | _ => none

/-- A `package.json` manifest with a `name` and a plain-string author. -/
def jsManifestFull : javascript.Manifest :=
  { name := some "app", version := some "2.0.0", author := some (.Str "Ada"),
    repository := none, description := none, license := some "MIT", homepage := none }

/-- A JS project at `home` whose `package.json` is `jsManifestFull` and
whose root auto-include scan finds a README, a LICENSE and a CHANGELOG. -/
def jsEnvFull : javascript.Env :=
  { workspace_root := some ["home"]
    load_manifest := fun path =>
      if path = ["home", "package.json"] then .ok jsManifestFull
      else .error (.ReadError path)
    find_auto_includes := fun dir =>
      .ok ⟨some (dir ++ ["README.md"]), [dir ++ ["LICENSE"]], some (dir ++ ["CHANGELOG.md"])⟩ }

/-- The same JS project with the `name` field removed from its manifest. -/
def jsEnvNoName : javascript.Env :=
  { workspace_root := some ["home"]
    load_manifest := fun path =>
      if path = ["home", "package.json"] then .ok { jsManifestFull with name := none }
      else .error (.ReadError path)
    find_auto_includes := fun dir => .ok ⟨some (dir ++ ["README.md"]), [], none⟩ }

/-- The single normalized package `get_project` produces in `jsEnvFull`. -/
def jsPackageInfoFull : javascript.PackageInfo :=
  { name := "app", version := some "2.0.0", description := none, authors := ["Ada"],
    license := some "MIT", publish := true, repository_url := none, homepage_url := none,
    documentation_url := none, readme_file := some ["home", "README.md"],
    license_files := [["home", "LICENSE"]], changelog_file := some ["home", "CHANGELOG.md"],
    binaries := ["app"] }

/-- The `WorkspaceInfo` that `get_project` produces in `jsEnvFull`. -/
def jsWsInfoFull : javascript.WorkspaceInfo :=
  { kind := WorkspaceKind.Rust, target_dir := ["home", "node_modules"],
    workspace_dir := ["home"], package_info := [("app", jsPackageInfoFull)],
    manifest_path := ["home", "package.json"], repository_url := none,
    root_auto_includes := ⟨some ["home", "README.md"], [["home", "LICENSE"]],
      some ["home", "CHANGELOG.md"]⟩ }

/-! ## Helper lemmas -/

/-- `collectResult` short-circuits: when every element before `p` succeeds
and `p` fails with `e`, the whole collection fails with `e`. -/
theorem collectResult_first_error {α β ε : Type} (f : α → Except ε β) (pre : List α)
    (p : α) (post : List α) (e : ε) (hpre : ∀ q ∈ pre, ∃ y, f q = .ok y)
    (hp : f p = .error e) : generic.collectResult f (pre ++ p :: post) = .error e := by
  induction pre with
  | nil => simp [generic.collectResult, hp]
  | cons q qs ih =>
    obtain ⟨y, hy⟩ := hpre q (by simp)
    have ih2 := ih (fun r hr => hpre r (by simp [hr]))
    simp [generic.collectResult, hy, ih2]

/-- Every element of a successful `collectResult` is the successful image of
some element of the input list. -/
theorem collectResult_ok_mem {α β ε : Type} (f : α → Except ε β) (xs : List α)
    (ys : List β) (h : generic.collectResult f xs = .ok ys) :
    ∀ y ∈ ys, ∃ x ∈ xs, f x = .ok y := by
  induction xs generalizing ys with
  | nil =>
    unfold generic.collectResult at h
    injection h with h
    subst h
    simp
  | cons x xs ih =>
    unfold generic.collectResult at h
    cases hfx : f x with
    | error e => rw [hfx] at h; exact Except.noConfusion h
    | ok y0 =>
      rw [hfx] at h
      cases hrest : generic.collectResult f xs with
      | error e => rw [hrest] at h; exact Except.noConfusion h
      | ok ys0 =>
        rw [hrest] at h
        injection h with h
        subst h
        intro y hy
        rcases List.mem_cons.mp hy with h1 | h2
        · exact ⟨x, by simp, h1 ▸ hfx⟩
        · obtain ⟨x1, hx1, hx2⟩ := ih ys0 hrest y h2
          exact ⟨x1, by simp [hx1], hx2⟩

/-- Destructs a successful `workspace_info`: its members are exactly the
collected normalizer outputs, and its repository URL is the first member's
repository URL when there is a first member, else `none`. -/
theorem workspace_info_ok_elim (env : generic.Env) (mp wd : FsPath) (eps : List FsPath)
    (wi : generic.WorkspaceInfo) (h : generic.workspace_info env mp wd eps = .ok wi) :
    generic.collectResult (generic.package_info env) eps = .ok wi.package_info ∧
    wi.repository_url = (wi.package_info.head?.map (fun p => p.repository_url)).getD none := by
  unfold generic.workspace_info at h
  cases hai : env.find_auto_includes wd with
  | error e => rw [hai] at h; exact Except.noConfusion h
  | ok ai =>
    rw [hai] at h
    cases hcr : generic.collectResult (generic.package_info env) eps with
    | error e => rw [hcr] at h; exact Except.noConfusion h
    | ok pkgs =>
      rw [hcr] at h
      injection h with h
      subst h
      exact ⟨rfl, rfl⟩

/-! ## Claim theorems -/

/-- C1: the declarative-config detector's `get_workspace` classifies every
outcome three ways — when `find_file` reports no `dist.toml` within the
search bounds it returns `Missing` carrying that not-found cause; when a
`dist.toml` was found but `workspace_from` fails it returns `Broken`
carrying both the found manifest path and the underlying cause; when
resolution succeeds it returns `Found` with the resolved `WorkspaceInfo`. -/
theorem c1_get_workspace_three_way_classification (env : generic.Env) (start_dir : FsPath)
    (clamp_to_dir : Option FsPath) :
    (∀ e, env.find_file "dist.toml" start_dir clamp_to_dir = .error e →
      generic.get_workspace env start_dir clamp_to_dir = .Missing e) ∧
    (∀ mp, env.find_file "dist.toml" start_dir clamp_to_dir = .ok mp →
      (∀ e, generic.workspace_from env mp = .error e →
        generic.get_workspace env start_dir clamp_to_dir = .Broken mp e) ∧
      (∀ info, generic.workspace_from env mp = .ok info →
        generic.get_workspace env start_dir clamp_to_dir = .Found info)) := by
  refine ⟨fun e he => ?_, fun mp hmp => ⟨fun e he => ?_, fun info hi => ?_⟩⟩
  · simp only [generic.get_workspace, he]
  · simp only [generic.get_workspace, hmp, he]
  · simp only [generic.get_workspace, hmp, hi]

theorem c1_witness :
    generic.get_workspace envMissing ["start"] none =
      .Missing (.NotFoundError ["start"] none) ∧
    generic.get_workspace envMalformed ["start"] none =
      .Broken ["ws", "dist.toml"] (.DistTomlMalformedError ["ws", "dist.toml"]) ∧
    generic.get_workspace envTwoMembers ["start"] none = .Found wsTwoInfo := by
  refine ⟨?_, ?_, ?_⟩
  · exact (c1_get_workspace_three_way_classification envMissing ["start"] none).1 _ rfl
  · exact ((c1_get_workspace_three_way_classification envMalformed ["start"] none).2
      ["ws", "dist.toml"] rfl).1 _ rfl
  · exact ((c1_get_workspace_three_way_classification envTwoMembers ["start"] none).2
      ["ws", "dist.toml"] rfl).2 wsTwoInfo rfl

/-- C2: in the declarative-config normalizer the produced `manifest_path` is
the member's manifest file path, but `package_root` is set to that same
manifest file path, not the candidate member directory — evaluated at member
directory `ws/a` of the concrete two-member workspace, both fields are
`ws/a/dist.toml`, which is not the member directory `ws/a`. -/
theorem c2_package_root_equals_manifest_path :
    (generic.package_info envTwoMembers ["ws", "a"]).map
        (fun p => (p.manifest_path, p.package_root))
      = .ok (["ws", "a", "dist.toml"], ["ws", "a", "dist.toml"]) ∧
    (["ws", "a", "dist.toml"] : FsPath) ≠ (["ws", "a"] : FsPath) :=
  ⟨rfl, by decide⟩

/-- C4: for every successfully resolved declarative-config workspace, the
repository URL is the first member's repository URL whenever any member has
one, and it is absent when no member has one. -/
theorem c4_repository_url_inherited_from_first_member (env : generic.Env) (mp wd : FsPath)
    (eps : List FsPath) (wi : generic.WorkspaceInfo)
    (h : generic.workspace_info env mp wd eps = .ok wi) :
    (∀ p0, wi.package_info.head? = some p0 →
      (∃ p ∈ wi.package_info, p.repository_url ≠ none) →
      wi.repository_url = p0.repository_url) ∧
    ((∀ p ∈ wi.package_info, p.repository_url = none) → wi.repository_url = none) := by
  obtain ⟨-, hrep⟩ := workspace_info_ok_elim env mp wd eps wi h
  constructor
  · intro p0 h0 _
    rw [hrep, h0]
    rfl
  · intro hall
    cases hpi : wi.package_info with
    | nil => rw [hrep, hpi]; rfl
    | cons p rest =>
      rw [hrep, hpi]
      have := hall p (by rw [hpi]; exact List.mem_cons_self p rest)
      simp [this]

theorem c4_witness : wsTwoInfo.repository_url = none := by
  have h := c4_repository_url_inherited_from_first_member envTwoMembers ["ws", "dist.toml"]
    ["ws"] [["ws", "a"], ["ws", "b"]] wsTwoInfo rfl
  exact h.2 (by decide)

/-- C5: the declarative-config detector's result carries the `Generic` kind,
but the JS-style detector's result carries the `Rust` kind, not a kind
identifying the JS-style ecosystem — evaluated on concrete projects of each
detector. -/
theorem c5_js_detector_kind_is_rust :
    (javascript.get_project jsEnvFull).map (fun wi => wi.kind) = .ok WorkspaceKind.Rust ∧
    WorkspaceKind.Rust ≠ WorkspaceKind.Javascript ∧
    (searchFoundInfo (generic.get_workspace envTwoMembers ["ws"] none)).map (fun wi => wi.kind)
      = some WorkspaceKind.Generic :=
  ⟨rfl, by decide, rfl⟩

/-- C9: a declarative manifest that parses but contains neither a
`workspace` nor a `package` section makes the search outcome `Broken` with a
`DistTomlMalformedError` cause naming the manifest's path. -/
theorem c9_neither_section_is_broken_malformed (env : generic.Env) (start_dir : FsPath)
    (clamp_to_dir : Option FsPath) (mp : FsPath) (m : generic.Manifest)
    (hf : env.find_file "dist.toml" start_dir clamp_to_dir = .ok mp)
    (hl : env.load_root_dist_toml mp = .ok m)
    (hw : m.workspace = none) (hp : m.package = none) :
    generic.get_workspace env start_dir clamp_to_dir =
      .Broken mp (.DistTomlMalformedError mp) := by
  have hfrom : generic.workspace_from env mp = .error (.DistTomlMalformedError mp) := by
    unfold generic.workspace_from
    rw [hl]
    simp [generic.Manifest.workspace_members, hw, hp]
  simp only [generic.get_workspace, hf, hfrom]

theorem c9_witness :
    generic.get_workspace envMalformed ["home"] none =
      .Broken ["ws", "dist.toml"] (.DistTomlMalformedError ["ws", "dist.toml"]) :=
  c9_neither_section_is_broken_malformed envMalformed ["home"] none ["ws", "dist.toml"]
    { workspace := none, package := none } rfl rfl rfl rfl

/-- C3 counterexample: in the concrete two-member declarative-config
workspace, the root auto-include scan finds `ws/README.md`, yet both
members' resolved `readme_file` fields stay absent — the declarative-config
detector does not apply the Auto-Include Merger to its members. -/
theorem c3_counterexample :
    (searchFoundInfo (generic.get_workspace envTwoMembers ["ws"] none)).map
        (fun wi => (wi.root_auto_includes.readme, wi.package_info.map fun p => p.readme_file))
      = some (some ["ws", "README.md"], [none, none]) := rfl

/-- C3 (amended): the JS-style detector applies the Auto-Include Merger to
its normalized package before constructing the `WorkspaceInfo` (the
package's always-absent `readme_file`, `license_files` and `changelog_file`
come out equal to the root's auto-discovered files), while the
declarative-config Workspace Assembler's members are exactly the Package
Normalizer's outputs, with no merger applied. -/
theorem c3_merger_applied_only_in_js_detector :
    (∀ env mp wd eps wi p, generic.workspace_info env mp wd eps = .ok wi →
      p ∈ wi.package_info → ∃ q ∈ eps, generic.package_info env q = .ok p) ∧
    (∀ env root ai wi, javascript.Env.workspace_root env = some root →
      javascript.Env.find_auto_includes env root = .ok ai →
      javascript.get_project env = .ok wi →
      ∀ pr ∈ wi.package_info,
        pr.2.readme_file = ai.readme ∧ pr.2.license_files = ai.license_files ∧
        pr.2.changelog_file = ai.changelog) := by
  constructor
  · intro env mp wd eps wi p h hp
    obtain ⟨hcr, -⟩ := workspace_info_ok_elim env mp wd eps wi h
    exact collectResult_ok_mem (generic.package_info env) eps wi.package_info hcr p hp
  · intro env root ai wi hr ha hproj pr hpr
    cases hl : env.load_manifest (root ++ ["package.json"]) with
    | error e => simp [javascript.get_project, hr, hl] at hproj
    | ok m =>
      cases hn : m.name with
      | none => simp [javascript.get_project, hr, hl, ha, hn] at hproj
      | some nm =>
        simp only [javascript.get_project, hr, hl, ha, hn, Except.ok.injEq] at hproj
        subst hproj
        simp only [List.mem_singleton] at hpr
        subst hpr
        simp [javascript.merge_auto_includes]

theorem c3_witness :
    (∃ q ∈ [["ws", "a"], ["ws", "b"]],
      generic.package_info envTwoMembers q = .ok (samplePackageInfo ["ws", "a"] "a" none)) ∧
    ∀ pr ∈ jsWsInfoFull.package_info,
      pr.2.readme_file = some ["home", "README.md"] ∧
      pr.2.license_files = [["home", "LICENSE"]] ∧
      pr.2.changelog_file = some ["home", "CHANGELOG.md"] := by
  constructor
  · exact c3_merger_applied_only_in_js_detector.1 envTwoMembers ["ws", "dist.toml"] ["ws"]
      [["ws", "a"], ["ws", "b"]] wsTwoInfo (samplePackageInfo ["ws", "a"] "a" none) rfl
      (by simp [wsTwoInfo])
  · exact c3_merger_applied_only_in_js_detector.2 jsEnvFull ["home"]
      ⟨some ["home", "README.md"], [["home", "LICENSE"]], some ["home", "CHANGELOG.md"]⟩
      jsWsInfoFull rfl rfl rfl

/-- C6: a JS-style manifest whose `name` field is absent makes `get_project`
fail (the source panics through `expect`, modelled as an error): no
`WorkspaceInfo` is produced. -/
theorem c6_js_missing_name_fails_discovery (env : javascript.Env) (root : FsPath)
    (m : javascript.Manifest) (hr : env.workspace_root = some root)
    (hl : env.load_manifest (root ++ ["package.json"]) = .ok m)
    (hn : m.name = none) :
    ∃ e, javascript.get_project env = .error e := by
  cases hfa : env.find_auto_includes root with
  | error e => exact ⟨e, by simp [javascript.get_project, hr, hl, hfa]⟩
  | ok ai => exact ⟨.MissingName, by simp [javascript.get_project, hr, hl, hfa, hn]⟩

theorem c6_witness : ∃ e, javascript.get_project jsEnvNoName = .error e :=
  c6_js_missing_name_fails_discovery jsEnvNoName ["home"]
    { jsManifestFull with name := none } rfl rfl rfl

/-- C7 counterexample: a declarative manifest with both a `[workspace]`
section (with no `members` field) and a `[package]` section is not treated
as workspace-style — the inline package section is not ignored: the single
resolved member is the root package `root`, rooted at the manifest's own
directory. -/
theorem c7_counterexample :
    (searchFoundInfo (generic.get_workspace envWsNoMembers ["ws"] none)).map
        (fun wi => (wi.package_info.map fun p => p.name,
                    wi.package_info.map fun p => p.manifest_path))
      = some (["root"], [["ws", "dist.toml"]]) := rfl

/-- C7 (amended): for every declarative manifest containing both a
`workspace` section whose `members` list is present and a `package` section,
the Topology Resolver treats it as workspace-style: resolution proceeds as
the workspace assembly on the members joined onto the workspace root,
independent of the inline package record, which is ignored. -/
theorem c7_workspace_with_members_takes_precedence (env : generic.Env) (mp : FsPath)
    (m : generic.Manifest) (members : List String) (pkg : generic.Package)
    (hl : env.load_root_dist_toml mp = .ok m)
    (hw : m.workspace = some ⟨some members⟩) (_hp : m.package = some pkg) :
    generic.workspace_from env mp =
      generic.workspace_info env mp mp.dropLast
        (members.map fun name => mp.dropLast ++ [name]) := by
  unfold generic.workspace_from
  rw [hl]
  simp [generic.Manifest.workspace_members, hw]

theorem c7_witness :
    generic.workspace_from envTwoMembers ["ws", "dist.toml"] =
      generic.workspace_info envTwoMembers ["ws", "dist.toml"] ["ws"]
        [["ws", "a"], ["ws", "b"]] := by
  have h := c7_workspace_with_members_takes_precedence envTwoMembers ["ws", "dist.toml"]
    { workspace := some ⟨some ["a", "b"]⟩, package := some (samplePackage "root" none) }
    ["a", "b"] (samplePackage "root" none) rfl rfl rfl
  simpa using h

/-- C8: if the auto-include scan succeeds, every member before `p` resolves,
and member `p`'s normalization fails with `e`, then the whole workspace
resolution fails with exactly `e` — no partial `WorkspaceInfo` is returned
and no placeholder package is substituted. -/
theorem c8_member_failure_short_circuits (env : generic.Env) (mp wd : FsPath)
    (pre : List FsPath) (p : FsPath) (post : List FsPath) (e : AxoprojectError)
    (ai : AutoIncludes) (ha : env.find_auto_includes wd = .ok ai)
    (hpre : ∀ q ∈ pre, ∃ y, generic.package_info env q = .ok y)
    (hp : generic.package_info env p = .error e) :
    generic.workspace_info env mp wd (pre ++ p :: post) = .error e := by
  have hcr := collectResult_first_error (generic.package_info env) pre p post e hpre hp
  simp only [generic.workspace_info, ha, hcr]

theorem c8_witness :
    generic.workspace_info envBrokenMember ["ws", "dist.toml"] ["ws"]
      [["ws", "a"], ["ws", "b"]] = .error (.PackageMissingError ["ws", "b", "dist.toml"]) := by
  have h := c8_member_failure_short_circuits envBrokenMember ["ws", "dist.toml"] ["ws"]
    [["ws", "a"]] ["ws", "b"] [] (.PackageMissingError ["ws", "b", "dist.toml"])
    ⟨none, [], none⟩ rfl
    (by intro q hq; simp only [List.mem_singleton] at hq; subst hq; exact ⟨_, rfl⟩) rfl
  simpa using h

/-- C10: a declarative manifest whose `workspace` section has no `members`
field but which has a `package` section resolves as a single package rooted
at the workspace directory: the candidate list is the workspace directory
itself, and (when the collaborators succeed) resolution yields a
one-package workspace named after the inline package, not an error. -/
theorem c10_membersless_workspace_single_package (env : generic.Env) (wd : FsPath)
    (m : generic.Manifest) (pkg : generic.Package) (ai : AutoIncludes)
    (hl : env.load_root_dist_toml (wd ++ ["dist.toml"]) = .ok m)
    (hw : m.workspace = some ⟨none⟩) (hp : m.package = some pkg)
    (ha : env.find_auto_includes wd = .ok ai) :
    generic.workspace_from env (wd ++ ["dist.toml"]) =
      generic.workspace_info env (wd ++ ["dist.toml"]) wd [wd] ∧
    ∃ wi, generic.workspace_from env (wd ++ ["dist.toml"]) = .ok wi ∧
      wi.package_info.map (fun p => p.name) = [pkg.name] := by
  have hdrop : (wd ++ ["dist.toml"]).dropLast = wd := by
    simp
  have h1 : generic.workspace_from env (wd ++ ["dist.toml"]) =
      generic.workspace_info env (wd ++ ["dist.toml"]) wd [wd] := by
    unfold generic.workspace_from
    rw [hl, hdrop]
    simp [generic.Manifest.workspace_members, hw, hp]
  obtain ⟨info, hinfo, hname⟩ :
      ∃ info, generic.package_info env wd = .ok info ∧ info.name = pkg.name := by
    simp only [generic.package_info, hl, hp]
    exact ⟨_, rfl, rfl⟩
  have hcr : generic.collectResult (generic.package_info env) [wd] = .ok [info] := by
    simp [generic.collectResult, hinfo]
  refine ⟨h1, ?_⟩
  rw [h1]
  simp only [generic.workspace_info, ha, hcr]
  exact ⟨_, rfl, by simp [hname]⟩

theorem c10_witness :
    (generic.workspace_from envWsNoMembers ["ws", "dist.toml"] =
      generic.workspace_info envWsNoMembers ["ws", "dist.toml"] ["ws"] [["ws"]]) ∧
    ∃ wi, generic.workspace_from envWsNoMembers ["ws", "dist.toml"] = .ok wi ∧
      wi.package_info.map (fun p => p.name) = ["root"] := by
  have h := c10_membersless_workspace_single_package envWsNoMembers ["ws"]
    { workspace := some ⟨none⟩, package := some (samplePackage "root" none) }
    (samplePackage "root" none) ⟨none, [], none⟩ rfl rfl rfl rfl
  simpa using h
